import Mathlib

/-!
Verification development for the retrieval-augmented query pipeline
(rag-pipeline-turkish).  The Python modules `retrieval.py`, `embeddings.py`,
`llm_generator.py` and `vector_store.py` are shallowly embedded as pure Lean
functions.  External effectful collaborators (the Qdrant vector search, the
FlashRank reranker, the sentence-transformers encoder, the Groq chat
completion endpoint) are passed in as function parameters returning
`Except String _`: `Except.error e` models the Python call raising an
exception with message `e`, which the embedded code handles exactly where the
source has a `try/except`.  Floating-point scores are modelled as rationals
(only their ordering matters to the code under verification); Python strings
are Lean `String`s and Python character slicing is `String.take`.
-/

namespace RagTR

/-! ## config.py -/

/-- config.py: `TOP_K_INITIAL = 25`. -/
def TOP_K_INITIAL : Nat := 25

/-- config.py: `TOP_K_RERANKED = 5`. -/
def TOP_K_RERANKED : Nat := 5

/-! ## Data model

`SearchResult` is the dict built by `VectorStore.search` (vector_store.py,
lines 98-108): keys `id, score, text, source, chunk_index, page_number,
metadata`.  The `metadata` payload is opaque to all code verified here, so it
is modelled as an uninterpreted `String`. -/

structure SearchResult where
  id : String
  score : Rat
  text : String
  source : String
  chunk_index : Int
  page_number : Int
  metadata : String
deriving Repr, DecidableEq, Inhabited

/-- A result dict returned by `RetrievalEngine.retrieve`.  Dicts coming from
the reranked branch (retrieval.py lines 69-78) carry an `original_score` key;
dicts returned unchanged from stage 1 do not, which is modelled by
`original_score : Option Rat` being `none` for them. -/
structure ResultEntry where
  id : String
  score : Rat
  original_score : Option Rat
  text : String
  source : String
  chunk_index : Int
  page_number : Int
  metadata : String
deriving Repr, DecidableEq, Inhabited

/-- View of a stage-1 dict as a returned result dict (no `original_score`
key). -/
def searchToEntry (r : SearchResult) : ResultEntry :=
  { id := r.id, score := r.score, original_score := none, text := r.text,
    source := r.source, chunk_index := r.chunk_index,
    page_number := r.page_number, metadata := r.metadata }

/-- A passage dict handed to the reranker: retrieval.py lines 58-61,
`{"id": i, "text": r["text"], "meta": r}`. -/
structure Passage where
  id : Nat
  text : String
  meta : SearchResult
deriving Repr, DecidableEq

/-- An item of the reranker's output: a new `score`, the passage `text`, and
the original stage-1 dict under `meta` (flashrank returns the passage dicts
it was given, with a score added). -/
structure RankItem where
  score : Rat
  text : String
  meta : SearchResult
deriving Repr, DecidableEq

/-- The `debug_info` dict built incrementally by `retrieve`
(retrieval.py lines 37-42, 50-51, 55, 83-84, 90).  Keys that are only
present on some paths are modelled as `Option`, `none` meaning the key was
never assigned. -/
structure DebugInfo where
  query : String
  use_reranking : Bool
  top_k_initial : Nat
  top_k_final : Nat
  stage1_count : Option Nat
  stage1_top_score : Option Rat
  final_method : Option String
  stage2_top_score : Option Rat
  error : Option String
deriving Repr, DecidableEq

/-- The initial `debug_info` dict of retrieval.py lines 37-42. -/
def initialDebug (query : String) (use_reranking : Bool)
    (top_k_initial top_k_final : Nat) : DebugInfo :=
  { query := query, use_reranking := use_reranking,
    top_k_initial := top_k_initial, top_k_final := top_k_final,
    stage1_count := none, stage1_top_score := none, final_method := none,
    stage2_top_score := none, error := none }

/-! ## retrieval.py: RetrievalEngine.retrieve -/

/-- retrieval.py lines 58-61: the passages list
`[{"id": i, "text": r["text"], "meta": r} for i, r in enumerate(initial_results)]`. -/
def passagesOf (initial_results : List SearchResult) : List Passage :=
  initial_results.enum.map fun p => { id := p.1, text := p.2.text, meta := p.2 }

/-- retrieval.py lines 67-78: the dict appended to `reranked_results` for one
reranker output item (`page_number` is `original_meta.get("page_number", -1)`;
the stage-1 dict always carries the key, so this is `meta.page_number`). -/
def rankItemToEntry (item : RankItem) : ResultEntry :=
  { id := item.meta.id, score := item.score,
    original_score := some item.meta.score, text := item.text,
    source := item.meta.source, chunk_index := item.meta.chunk_index,
    page_number := item.meta.page_number, metadata := item.meta.metadata }

/-- The sort key of retrieval.py line 80:
`reranked_results.sort(key=lambda x: x["score"], reverse=True)` orders by
score descending. -/
def scoreDesc (a b : ResultEntry) : Prop := b.score ≤ a.score

instance : DecidableRel scoreDesc := fun a b =>
  inferInstanceAs (Decidable (b.score ≤ a.score))

instance : IsTotal ResultEntry scoreDesc := ⟨fun a b => le_total b.score a.score⟩

instance : IsTrans ResultEntry scoreDesc :=
  ⟨fun _ _ _ hab hbc => le_trans hbc hab⟩

/-- retrieval.py line 51: `initial_results[0]["score"] if initial_results
else 0`. -/
def stage1TopScore : List SearchResult → Rat
  | [] => 0
  | r :: _ => r.score

/-- retrieval.py line 84: `final_results[0]["score"] if final_results
else 0`. -/
def stage2TopScore : List ResultEntry → Rat
  | [] => 0
  | r :: _ => r.score

/-- `RetrievalEngine.retrieve` (retrieval.py lines 30-91).  `search` embeds
`self.vector_store.search` and `rerank` embeds
`self.reranker.rerank(RerankRequest(query, passages))` (including the lazy
load of the reranker, which raises inside the same `try`); an
`Except.error` result models the call raising.  Python's stable in-place
`sort(..., reverse=True)` is modelled as a stable insertion sort under
`scoreDesc`. -/
def retrieve (search : String → Nat → Except String (List SearchResult))
    (rerank : String → List Passage → Except String (List RankItem))
    (query : String) (use_reranking : Bool)
    (top_k_initial top_k_final : Nat) :
    List ResultEntry × DebugInfo :=
  let debug_info := initialDebug query use_reranking top_k_initial top_k_final
  match search query top_k_initial with
  | Except.error e => ([], { debug_info with error := some e })
  | Except.ok initial_results =>
    let debug_info := { debug_info with
      stage1_count := some initial_results.length,
      stage1_top_score := some (stage1TopScore initial_results) }
    if !use_reranking || initial_results.length == 0 then
      ((initial_results.take top_k_final).map searchToEntry,
        { debug_info with final_method := some "vector_only" })
    else
      match rerank query (passagesOf initial_results) with
      | Except.error e => ([], { debug_info with error := some e })
      | Except.ok reranked =>
        let reranked_results := reranked.map rankItemToEntry
        let sorted := List.insertionSort scoreDesc reranked_results
        let final_results := sorted.take top_k_final
        (final_results,
          { debug_info with
            final_method := some "reranked",
            stage2_top_score := some (stage2TopScore final_results) })

/-! ## retrieval.py: RetrievalEngine.build_context -/

/-- One context block of retrieval.py lines 103-106:
`f"[Kaynak {i}: {source}, Sayfa {page}]\n{text}"` when `page > 0`, else
`f"[Kaynak {i}: {source}]\n{text}"`. -/
def contextBlock (i : Nat) (r : ResultEntry) : String :=
  if r.page_number > 0 then
    "[Kaynak " ++ toString i ++ ": " ++ r.source ++ ", Sayfa " ++
      toString r.page_number ++ "]\n" ++ r.text
  else
    "[Kaynak " ++ toString i ++ ": " ++ r.source ++ "]\n" ++ r.text

/-- The `context_parts` loop of retrieval.py lines 97-106:
`for i, r in enumerate(results, 1): context_parts.append(...)`, with `i` the
1-based counter threaded through. -/
def buildParts (i : Nat) : List ResultEntry → List String
  | [] => []
  | r :: rest => contextBlock i r :: buildParts (i + 1) rest

/-- `RetrievalEngine.build_context` (retrieval.py lines 93-108). -/
def build_context (results : List ResultEntry) : String :=
  if results.isEmpty then "No context found."
  else String.intercalate "\n\n---\n\n" (buildParts 1 results)

/-! ## embeddings.py: TurkishEmbedder

The sentence-transformers model is external; its behavioural contract (one
vector per input text) is embedded as a per-text `encode` function parameter,
the batched `self.model.encode(prefixed_texts, ...)` call being its map over
the batch.  `embed_documents` additionally reports whether `self.model` was
invoked at all (`false` on the early return of line 27-28, which happens
before the lazy `model` property is ever touched). -/

/-- `TurkishEmbedder.embed_documents` (embeddings.py lines 26-39), paired
with a flag telling whether the underlying model was invoked. -/
def embed_documents (encode : String → List Rat) (texts : List String) :
    List (List Rat) × Bool :=
  if texts.isEmpty then ([], false)
  else
    let prefixed_texts := texts.map fun text => "passage: " ++ text
    (prefixed_texts.map encode, true)

/-- `TurkishEmbedder.embed_query` (embeddings.py lines 41-50). -/
def embed_query (encode : String → List Rat) (text : String) : List Rat :=
  encode ("query: " ++ text)

/-! ## llm_generator.py: LLMGenerator -/

/-- A chat-history message dict `{"role": ..., "content": ...}`. -/
structure ChatMessage where
  role : String
  content : String
deriving Repr, DecidableEq

/-- Python character slicing `s[:n]`: the first `n` characters of `s`. -/
def pySlice (s : String) (n : Nat) : String := ⟨s.data.take n⟩

/-- One formatted turn of llm_generator.py lines 27-29:
`role = "User" if msg["role"] == "user" else "Assistant"`,
`content = msg["content"][:500]`, rendered `f"{role}: {content}"`. -/
def renderMsg (msg : ChatMessage) : String :=
  (if msg.role == "user" then "User" else "Assistant") ++ ": " ++
    pySlice msg.content 500

/-- `LLMGenerator._format_chat_history` (llm_generator.py lines 21-31). -/
def format_chat_history (chat_history : List ChatMessage) : String :=
  if chat_history.isEmpty then "No conversation history yet."
  else String.intercalate "\n" (chat_history.map renderMsg)

/-- `SYSTEM_PROMPT_TR.format(context=..., question=..., chat_history=...)`
(config.py lines 41-66 and llm_generator.py lines 45-49): the fixed
instruction template with its three placeholders substituted. -/
def SYSTEM_PROMPT_TR_format (context question chat_history : String) :
    String :=
  "Sen deneyimli bir Kıdemli ERP Yazılım ve Finans Danışmanısın. Türk işletme finansmanı, ERP sistemleri, vergi mevzuatı ve muhasebe konularında uzmansın.\n\nMUTLAK KURALLAR:\n1. SADECE Türkçe yanıt ver.\n2. SADECE sana verilen bağlam (context) içindeki bilgileri kullan.\n3. Sayıları ASLA tahmin etme. Sayıları metinde tam olarak göründüğü şekilde aktar.\n4. Eğer soru bağlamda yoksa, \"Dokümanda bulunamadı.\" de.\n5. Finansal oranlar, limitler veya tutarlar için kaynak metni birebir alıntıla.\n6. Önceki konuşma geçmişini dikkate al ve zamirleri doğru çözümle.\n\nYANITLAMA FORMATI:\n- Senden aksi istenmediği sürece kısa, öz ve net cevaplar ver.\n- Mümkünse madde işaretleri kullan\n- Karmaşık finansal terimleri açıkla\n- Rakamları ve tarihleri vurgula\n\nÖNCEKİ KONUŞMA GEÇMİŞİ:\n" ++
    chat_history ++ "\n\nBAĞLAM:\n" ++ context ++
    "\n\nKULLANICI SORUSU:\n" ++ question ++ "\n\nCEVAP:"

/-- The fixed localized fallback string of llm_generator.py lines 73
and 117. -/
def connection_error_message : String := "Connection error, please try again."

/-- `LLMGenerator.generate` (llm_generator.py lines 33-73).  `complete`
embeds `self.client.chat.completions.create(...)` followed by
`response.choices[0].message.content` (all inside the same `try`), applied
to the formatted user prompt; `Except.error` models the provider call
raising. -/
def generate (complete : String → Except String String)
    (question context : String) (chat_history : List ChatMessage) : String :=
  let history_str := format_chat_history chat_history
  let formatted_prompt := SYSTEM_PROMPT_TR_format context question history_str
  match complete formatted_prompt with
  | Except.ok content => content
  | Except.error _ => connection_error_message

/-- `LLMGenerator.generate_stream` (llm_generator.py lines 75-117).
`complete_stream` embeds the streaming provider call; on success it yields
the delta contents of the chunks (a `None` delta modelled as `""`), of which
the loop of lines 111-113 yields exactly the truthy, i.e. non-empty, ones.
On a raise, the `except` of lines 115-117 yields the fallback message as the
sole fragment.  The returned list is the sequence of yielded fragments. -/
def generate_stream (complete_stream : String → Except String (List String))
    (question context : String) (chat_history : List ChatMessage) :
    List String :=
  let history_str := format_chat_history chat_history
  let formatted_prompt := SYSTEM_PROMPT_TR_format context question history_str
  match complete_stream formatted_prompt with
  | Except.ok chunks => chunks.filter fun c => c != ""
  | Except.error _ => [connection_error_message]

/-! ## vector_store.py: VectorStore.get_collection_stats -/

/-- The fields of the qdrant collection info used by
`get_collection_stats` (vector_store.py lines 117-123). -/
structure CollectionInfo where
  vectors_count : Nat
  points_count : Nat
  status : String
deriving Repr, DecidableEq

/-- The stats dict returned by `get_collection_stats`. -/
structure CollectionStats where
  name : String
  vectors_count : Nat
  points_count : Nat
  status : String
deriving Repr, DecidableEq

/-- `VectorStore.get_collection_stats` (vector_store.py lines 115-131).
`get_collection` embeds `self._client.get_collection(self.collection_name)`;
`Except.error` models the client call raising. -/
def get_collection_stats
    (get_collection : String → Except String CollectionInfo)
    (collection_name : String) : CollectionStats :=
  match get_collection collection_name with
  | Except.ok info =>
      { name := collection_name, vectors_count := info.vectors_count,
        points_count := info.points_count, status := info.status }
  | Except.error _ =>
      { name := collection_name, vectors_count := 0, points_count := 0,
        status := "error" }

/-! ## Concrete instances used to exercise the theorems -/

/-- A stage-1 result as produced by `VectorStore.search` (shaped after the
fixture of tests/conftest.py). -/
def srA : SearchResult :=
  { id := "1", score := 9, text := "KDV metni", source := "vergi_kanunu.pdf",
    chunk_index := 0, page_number := 1, metadata := "mA" }

/-- A second stage-1 result with a lower similarity. -/
def srB : SearchResult :=
  { id := "2", score := 8, text := "Fatura metni", source := "fatura.pdf",
    chunk_index := 1, page_number := 5, metadata := "mB" }

/-- A vector search that succeeds with the two sample results. -/
def sampleSearch : String → Nat → Except String (List SearchResult) :=
  fun _ _ => Except.ok [srA, srB]

/-- A vector search whose underlying client call raises. -/
def failSearch : String → Nat → Except String (List SearchResult) :=
  fun _ _ => Except.error "Search error"

/-- A reranker whose load or `rerank` call raises. -/
def failRerank : String → List Passage → Except String (List RankItem) :=
  fun _ _ => Except.error "flashrank failed"

/-- A reranker that succeeds, scoring each passage by its position index
(so the stage-1 order is reversed, making the re-sort observable). -/
def sampleRerank : String → List Passage → Except String (List RankItem) :=
  fun _ passages =>
    Except.ok (passages.map fun p =>
      { score := (p.id : Rat), text := p.text, meta := p.meta })

/-- The items `sampleRerank` returns on the passages of `[srA, srB]`. -/
def sampleItems : List RankItem :=
  (passagesOf [srA, srB]).map fun p =>
    { score := (p.id : Rat), text := p.text, meta := p.meta }

/-- A concrete per-text encoder standing in for the sentence-transformers
model. -/
def sampleEncode : String → List Rat := fun s => [(s.data.length : Rat)]

/-- A chat completion call that raises. -/
def failComplete : String → Except String String :=
  fun _ => Except.error "boom"

/-- A streaming chat completion call that raises. -/
def failCompleteStream : String → Except String (List String) :=
  fun _ => Except.error "stream boom"

/-- A qdrant `get_collection` call that raises. -/
def failGetCollection : String → Except String CollectionInfo :=
  fun _ => Except.error "kaput"

/-- A sample conversation turn. -/
def sampleMsg : ChatMessage := { role := "user", content := "merhaba" }

/-! ## Helper lemmas -/

/-- Shape of `retrieve` when the vector search raises
(retrieval.py lines 88-91). -/
lemma retrieve_search_error_eq
    (search : String → Nat → Except String (List SearchResult))
    (rerank : String → List Passage → Except String (List RankItem))
    (query : String) (use_reranking : Bool) (tki tkf : Nat) (e : String)
    (hs : search query tki = Except.error e) :
    retrieve search rerank query use_reranking tki tkf =
      ([], { initialDebug query use_reranking tki tkf with
              error := some e }) := by
  unfold retrieve
  rw [hs]

/-- Shape of `retrieve` on the vector-only branch
(retrieval.py lines 53-56). -/
lemma retrieve_vector_only_eq
    (search : String → Nat → Except String (List SearchResult))
    (rerank : String → List Passage → Except String (List RankItem))
    (query : String) (use_reranking : Bool) (tki tkf : Nat)
    (initial_results : List SearchResult)
    (hs : search query tki = Except.ok initial_results)
    (hcond : use_reranking = false ∨ initial_results = []) :
    retrieve search rerank query use_reranking tki tkf =
      ((initial_results.take tkf).map searchToEntry,
       { initialDebug query use_reranking tki tkf with
          stage1_count := some initial_results.length,
          stage1_top_score := some (stage1TopScore initial_results),
          final_method := some "vector_only" }) := by
  unfold retrieve
  rw [hs]
  have hc : (!use_reranking || initial_results.length == 0) = true := by
    rcases hcond with h | h
    · simp [h]
    · simp [h]
  simp only [hc, if_true]

/-- Shape of `retrieve` when the reranker raises: the exception travels to
the `except` of retrieval.py lines 88-91. -/
lemma retrieve_rerank_error_eq
    (search : String → Nat → Except String (List SearchResult))
    (rerank : String → List Passage → Except String (List RankItem))
    (query : String) (tki tkf : Nat)
    (initial_results : List SearchResult) (e : String)
    (hne : initial_results ≠ [])
    (hs : search query tki = Except.ok initial_results)
    (hr : rerank query (passagesOf initial_results) = Except.error e) :
    retrieve search rerank query true tki tkf =
      ([], { initialDebug query true tki tkf with
          stage1_count := some initial_results.length,
          stage1_top_score := some (stage1TopScore initial_results),
          error := some e }) := by
  unfold retrieve
  rw [hs]
  have hc : (!true || initial_results.length == 0) = false := by
    simp [List.length_eq_zero, hne]
  simp only [hc, if_false, Bool.false_or]
  rw [hr]
  rfl

/-- Shape of `retrieve` on the successful reranking branch
(retrieval.py lines 58-86). -/
lemma retrieve_rerank_ok_eq
    (search : String → Nat → Except String (List SearchResult))
    (rerank : String → List Passage → Except String (List RankItem))
    (query : String) (tki tkf : Nat)
    (initial_results : List SearchResult) (items : List RankItem)
    (hne : initial_results ≠ [])
    (hs : search query tki = Except.ok initial_results)
    (hr : rerank query (passagesOf initial_results) = Except.ok items) :
    (retrieve search rerank query true tki tkf).1 =
      (List.insertionSort scoreDesc (items.map rankItemToEntry)).take tkf ∧
    (retrieve search rerank query true tki tkf).2.final_method =
      some "reranked" := by
  unfold retrieve
  rw [hs]
  have hc : (!true || initial_results.length == 0) = false := by
    simp [List.length_eq_zero, hne]
  simp only [hc, if_false, Bool.false_or]
  rw [hr]
  exact ⟨rfl, rfl⟩

/-- Python's `s[:n]` never yields more than `n` characters. -/
lemma pySlice_length_le (s : String) (n : Nat) : (pySlice s n).length ≤ n := by
  show (s.data.take n).length ≤ n
  exact List.length_take_le n s.data

/-- The `context_parts` loop is the block renderer mapped over the 1-based
enumeration of the results. -/
lemma buildParts_eq_enumFrom (i : Nat) (l : List ResultEntry) :
    buildParts i l = (List.enumFrom i l).map fun p => contextBlock p.1 p.2 := by
  induction l generalizing i with
  | nil => rfl
  | cons r rest ih => simp [buildParts, List.enumFrom, ih]

/-- A context block always starts with the 1-based source label and contains
the page part exactly when the page number is positive. -/
lemma contextBlock_page_iff (i : Nat) (r : ResultEntry) :
    contextBlock i r =
      "[Kaynak " ++ toString i ++ ": " ++ r.source ++
        (if r.page_number > 0 then ", Sayfa " ++ toString r.page_number
         else "") ++ "]\n" ++ r.text := by
  by_cases h : r.page_number > 0 <;>
    simp [contextBlock, h, String.append_assoc]

/-! ## Claim theorems -/

/-- C1 (counterexample): with reranking requested, a non-empty stage-1
candidate set `[srA, srB]` and a reranker that raises, `retrieve` does NOT
return the first `top_k_final` stage-1 items tagged `"vector_only"`: it
returns the empty list with an `error` diagnostic, because the rerank call
sits inside the same `try` as the vector search. -/
theorem rerank_failure_fallback_cex :
    (retrieve sampleSearch failRerank "q" true 25 5).1 ≠
      (([srA, srB]).take 5).map searchToEntry ∧
    (retrieve sampleSearch failRerank "q" true 25 5).2.final_method ≠
      some "vector_only" ∧
    (retrieve sampleSearch failRerank "q" true 25 5).1 = [] ∧
    (retrieve sampleSearch failRerank "q" true 25 5).2.error =
      some "flashrank failed" := by
  refine ⟨?_, ?_, ?_, ?_⟩ <;> decide

/-- C1 (amended): for every query, if reranking is requested, the stage-1
candidate set is non-empty and the reranker raises, `retrieve` returns the
empty result list together with diagnostics whose `error` field holds the
exception message; the outcome is not tagged with any final method. -/
theorem rerank_failure_returns_empty
    (search : String → Nat → Except String (List SearchResult))
    (rerank : String → List Passage → Except String (List RankItem))
    (query : String) (tki tkf : Nat)
    (initial_results : List SearchResult) (e : String)
    (hne : initial_results ≠ [])
    (hs : search query tki = Except.ok initial_results)
    (hr : rerank query (passagesOf initial_results) = Except.error e) :
    (retrieve search rerank query true tki tkf).1 = [] ∧
    (retrieve search rerank query true tki tkf).2.error = some e ∧
    (retrieve search rerank query true tki tkf).2.final_method = none := by
  rw [retrieve_rerank_error_eq search rerank query tki tkf initial_results e
    hne hs hr]
  exact ⟨rfl, rfl, rfl⟩

/-- C1 (witness): the amended statement at the concrete failing reranker. -/
theorem rerank_failure_returns_empty_witness :
    (retrieve sampleSearch failRerank "q" true 25 5).1 = [] ∧
    (retrieve sampleSearch failRerank "q" true 25 5).2.error =
      some "flashrank failed" ∧
    (retrieve sampleSearch failRerank "q" true 25 5).2.final_method = none :=
  rerank_failure_returns_empty sampleSearch failRerank "q" 25 5 [srA, srB]
    "flashrank failed" (List.cons_ne_nil _ _) rfl rfl

/-- C2: for every query, any failure of the vector search is caught inside
`retrieve`, which then returns the empty result list together with
diagnostics carrying the exception message in the `error` field (in the
embedding `retrieve` is a total function, so it never propagates the
failure to its caller). -/
theorem retrieve_search_failure_caught
    (search : String → Nat → Except String (List SearchResult))
    (rerank : String → List Passage → Except String (List RankItem))
    (query : String) (use_reranking : Bool) (tki tkf : Nat) (e : String)
    (hs : search query tki = Except.error e) :
    (retrieve search rerank query use_reranking tki tkf).1 = [] ∧
    (retrieve search rerank query use_reranking tki tkf).2.error = some e := by
  rw [retrieve_search_error_eq search rerank query use_reranking tki tkf e hs]
  exact ⟨rfl, rfl⟩

/-- C2 (witness): the statement at a concrete failing vector search. -/
theorem retrieve_search_failure_caught_witness :
    (retrieve failSearch failRerank "q" true 25 5).1 = [] ∧
    (retrieve failSearch failRerank "q" true 25 5).2.error =
      some "Search error" :=
  retrieve_search_failure_caught failSearch failRerank "q" true 25 5
    "Search error" rfl

/-- C3: for every query with `use_reranking == false`, and likewise whenever
the stage-1 result list is empty, `retrieve` returns exactly the first
`top_k_final` stage-1 results in unchanged order and reports
`final_method == "vector_only"` in the diagnostics. -/
theorem retrieve_vector_only_spec
    (search : String → Nat → Except String (List SearchResult))
    (rerank : String → List Passage → Except String (List RankItem))
    (query : String) (use_reranking : Bool) (tki tkf : Nat)
    (initial_results : List SearchResult)
    (hs : search query tki = Except.ok initial_results)
    (hcond : use_reranking = false ∨ initial_results = []) :
    (retrieve search rerank query use_reranking tki tkf).1 =
      (initial_results.take tkf).map searchToEntry ∧
    (retrieve search rerank query use_reranking tki tkf).2.final_method =
      some "vector_only" := by
  rw [retrieve_vector_only_eq search rerank query use_reranking tki tkf
    initial_results hs hcond]
  exact ⟨rfl, rfl⟩

/-- C3 (witness): the statement with reranking disabled on the two sample
results and `top_k_final = 1`. -/
theorem retrieve_vector_only_spec_witness :
    (retrieve sampleSearch failRerank "q" false 25 1).1 =
      (([srA, srB]).take 1).map searchToEntry ∧
    (retrieve sampleSearch failRerank "q" false 25 1).2.final_method =
      some "vector_only" :=
  retrieve_vector_only_spec sampleSearch failRerank "q" false 25 1 [srA, srB]
    rfl (Or.inl rfl)

/-- C4: for every query where reranking is requested, the stage-1 set is
non-empty and the reranker succeeds (returning one new score per candidate,
expressed as its output items' `meta` fields being a permutation of the
stage-1 results), the returned list is sorted by the new score descending,
has length at most `top_k_final` and at most the stage-1 set size, every
returned item carries the stage-1 similarity of its originating result as
`original_score`, and the diagnostics report `final_method == "reranked"`. -/
theorem retrieve_reranked_spec
    (search : String → Nat → Except String (List SearchResult))
    (rerank : String → List Passage → Except String (List RankItem))
    (query : String) (tki tkf : Nat)
    (initial_results : List SearchResult) (items : List RankItem)
    (hne : initial_results ≠ [])
    (hs : search query tki = Except.ok initial_results)
    (hr : rerank query (passagesOf initial_results) = Except.ok items)
    (hmeta : (items.map RankItem.meta).Perm initial_results) :
    List.Sorted scoreDesc (retrieve search rerank query true tki tkf).1 ∧
    (retrieve search rerank query true tki tkf).1.length ≤ tkf ∧
    (retrieve search rerank query true tki tkf).1.length ≤
      initial_results.length ∧
    (∀ r ∈ (retrieve search rerank query true tki tkf).1,
      ∃ sr ∈ initial_results, r.original_score = some sr.score ∧
        r.id = sr.id ∧ r.source = sr.source ∧ r.chunk_index = sr.chunk_index ∧
        r.page_number = sr.page_number ∧ r.metadata = sr.metadata) ∧
    (retrieve search rerank query true tki tkf).2.final_method =
      some "reranked" := by
  obtain ⟨h1, h2⟩ :=
    retrieve_rerank_ok_eq search rerank query tki tkf initial_results items
      hne hs hr
  have hlen : (List.insertionSort scoreDesc
      (items.map rankItemToEntry)).length = initial_results.length := by
    rw [(List.perm_insertionSort scoreDesc _).length_eq, List.length_map]
    simpa using hmeta.length_eq
  refine ⟨?_, ?_, ?_, ?_, h2⟩
  · rw [h1]
    exact List.Pairwise.sublist (List.take_sublist _ _)
      (List.sorted_insertionSort scoreDesc _)
  · rw [h1, List.length_take]
    exact min_le_left _ _
  · rw [h1, List.length_take, hlen]
    exact min_le_right _ _
  · intro r hrmem
    rw [h1] at hrmem
    have h3 : r ∈ List.insertionSort scoreDesc (items.map rankItemToEntry) :=
      List.take_subset _ _ hrmem
    have h4 : r ∈ items.map rankItemToEntry :=
      (List.perm_insertionSort scoreDesc _).mem_iff.mp h3
    obtain ⟨it, hit, rfl⟩ := List.mem_map.mp h4
    exact ⟨it.meta, hmeta.mem_iff.mp (List.mem_map_of_mem _ hit),
      rfl, rfl, rfl, rfl, rfl, rfl⟩

/-- C4 (witness): the statement at the concrete succeeding reranker on the
two sample results. -/
theorem retrieve_reranked_spec_witness :
    List.Sorted scoreDesc
      (retrieve sampleSearch sampleRerank "q" true 25 5).1 ∧
    (retrieve sampleSearch sampleRerank "q" true 25 5).1.length ≤ 5 ∧
    (retrieve sampleSearch sampleRerank "q" true 25 5).1.length ≤
      ([srA, srB]).length ∧
    (∀ r ∈ (retrieve sampleSearch sampleRerank "q" true 25 5).1,
      ∃ sr ∈ [srA, srB], r.original_score = some sr.score ∧
        r.id = sr.id ∧ r.source = sr.source ∧ r.chunk_index = sr.chunk_index ∧
        r.page_number = sr.page_number ∧ r.metadata = sr.metadata) ∧
    (retrieve sampleSearch sampleRerank "q" true 25 5).2.final_method =
      some "reranked" :=
  retrieve_reranked_spec sampleSearch sampleRerank "q" 25 5 [srA, srB]
    sampleItems (List.cons_ne_nil _ _) rfl rfl (by decide)

/-- C5: `build_context` of an empty result list is the fixed sentinel
`"No context found."`; of a non-empty list it is one labeled block per
result, in input order with 1-based labels, joined by the visible separator
`"\n\n---\n\n"`, where a block contains the `", Sayfa <page>"` part exactly
when the page number is positive. -/
theorem build_context_spec :
    build_context [] = "No context found." ∧
    ∀ results : List ResultEntry, results ≠ [] →
      build_context results =
        String.intercalate "\n\n---\n\n"
          ((List.enumFrom 1 results).map fun p => contextBlock p.1 p.2) ∧
      ((List.enumFrom 1 results).map fun p => contextBlock p.1 p.2).length =
        results.length ∧
      ∀ i r, contextBlock i r =
        "[Kaynak " ++ toString i ++ ": " ++ r.source ++
          (if r.page_number > 0 then ", Sayfa " ++ toString r.page_number
           else "") ++ "]\n" ++ r.text := by
  refine ⟨rfl, ?_⟩
  intro results hne
  refine ⟨?_, ?_, contextBlock_page_iff⟩
  · have hempty : results.isEmpty = false := by
      simp [List.isEmpty_iff, hne]
    rw [build_context, hempty, buildParts_eq_enumFrom]
    rfl
  · simp

/-- C5 (witness): the non-empty case at a one-element result list. -/
theorem build_context_spec_witness :
    build_context [searchToEntry srA] =
      String.intercalate "\n\n---\n\n"
        ((List.enumFrom 1 [searchToEntry srA]).map
          fun p => contextBlock p.1 p.2) ∧
    ((List.enumFrom 1 [searchToEntry srA]).map
      fun p => contextBlock p.1 p.2).length =
        ([searchToEntry srA] : List ResultEntry).length ∧
    ∀ i r, contextBlock i r =
      "[Kaynak " ++ toString i ++ ": " ++ r.source ++
        (if r.page_number > 0 then ", Sayfa " ++ toString r.page_number
         else "") ++ "]\n" ++ r.text :=
  build_context_spec.2 [searchToEntry srA] (List.cons_ne_nil _ _)

/-- C6: for every encoder and input, `embed_documents` embeds each document
text with exactly the `"passage: "` prefix prepended and `embed_query`
embeds the query with exactly the `"query: "` prefix prepended; neither
operation can produce the other's prefixed form, since no `"passage: "`-
prefixed text starts with `"query: "` and vice versa. -/
theorem embed_prefix_spec (encode : String → List Rat)
    (texts : List String) (text : String) :
    (embed_documents encode texts).1 =
      texts.map (fun t => encode ("passage: " ++ t)) ∧
    embed_query encode text = encode ("query: " ++ text) ∧
    (¬ ∃ u : List Char,
      ("query: " : String).data ++ u =
        (("passage: " ++ text : String)).data) ∧
    (¬ ∃ u : List Char,
      ("passage: " : String).data ++ u =
        (("query: " ++ text : String)).data) := by
  refine ⟨?_, rfl, ?_, ?_⟩
  · cases texts with
    | nil => simp [embed_documents]
    | cons t rest => simp [embed_documents, List.map_map]
  · rintro ⟨u, hu⟩
    have h2 : (("passage: " ++ text : String)).data =
        'p' :: (("assage: " : String).data ++ text.data) := by
      rw [String.data_append]; rfl
    have h1 : ("query: " : String).data ++ u =
        'q' :: (("uery: " : String).data ++ u) := rfl
    rw [h1, h2] at hu
    injection hu with hc _
    exact absurd hc (by decide)
  · rintro ⟨u, hu⟩
    have h2 : (("query: " ++ text : String)).data =
        'q' :: (("uery: " : String).data ++ text.data) := by
      rw [String.data_append]; rfl
    have h1 : ("passage: " : String).data ++ u =
        'p' :: (("assage: " : String).data ++ u) := rfl
    rw [h1, h2] at hu
    injection hu with hc _
    exact absurd hc (by decide)

/-- C6 (witness): the statement at a concrete encoder and texts. -/
theorem embed_prefix_spec_witness :
    (embed_documents sampleEncode ["KDV metni"]).1 =
      (["KDV metni"] : List String).map
        (fun t => sampleEncode ("passage: " ++ t)) ∧
    embed_query sampleEncode "KDV oranı nedir?" =
      sampleEncode ("query: " ++ "KDV oranı nedir?") ∧
    (¬ ∃ u : List Char,
      ("query: " : String).data ++ u =
        (("passage: " ++ "KDV oranı nedir?" : String)).data) ∧
    (¬ ∃ u : List Char,
      ("passage: " : String).data ++ u =
        (("query: " ++ "KDV oranı nedir?" : String)).data) :=
  embed_prefix_spec sampleEncode ["KDV metni"] "KDV oranı nedir?"

/-- C7: `embed_documents` applied to `[]` returns `[]` without invoking the
underlying model (the invocation flag is `false`), and on every non-empty
batch it returns exactly one vector per input text. -/
theorem embed_documents_spec (encode : String → List Rat) :
    embed_documents encode [] = ([], false) ∧
    ∀ texts : List String, texts ≠ [] →
      (embed_documents encode texts).1.length = texts.length := by
  refine ⟨rfl, ?_⟩
  intro texts hne
  cases texts with
  | nil => exact absurd rfl hne
  | cons t rest => simp [embed_documents]

/-- C7 (witness): the statement at a concrete encoder and two texts. -/
theorem embed_documents_spec_witness :
    embed_documents sampleEncode [] = ([], false) ∧
    (embed_documents sampleEncode ["KDV metni", "Fatura metni"]).1.length =
      (["KDV metni", "Fatura metni"] : List String).length :=
  ⟨(embed_documents_spec sampleEncode).1,
    (embed_documents_spec sampleEncode).2 ["KDV metni", "Fatura metni"]
      (List.cons_ne_nil _ _)⟩

/-- C8: when the provider call raises, the non-streaming `generate` returns
the fixed localized failure message instead of propagating the error (the
embedded `generate` is total, so it never raises), and `generate_stream`
yields that same message as its sole fragment. -/
theorem generate_failure_fallback
    (complete : String → Except String String)
    (complete_stream : String → Except String (List String))
    (question context : String) (chat_history : List ChatMessage)
    (e₁ e₂ : String)
    (h₁ : complete (SYSTEM_PROMPT_TR_format context question
            (format_chat_history chat_history)) = Except.error e₁)
    (h₂ : complete_stream (SYSTEM_PROMPT_TR_format context question
            (format_chat_history chat_history)) = Except.error e₂) :
    generate complete question context chat_history =
      connection_error_message ∧
    generate_stream complete_stream question context chat_history =
      [connection_error_message] := by
  unfold generate generate_stream
  simp only [h₁, h₂]
  exact ⟨trivial, trivial⟩

/-- C8 (witness): the statement at concrete failing provider calls. -/
theorem generate_failure_fallback_witness :
    generate failComplete "KDV oranı nedir?" "bağlam" [] =
      connection_error_message ∧
    generate_stream failCompleteStream "KDV oranı nedir?" "bağlam" [] =
      [connection_error_message] :=
  generate_failure_fallback failComplete failCompleteStream
    "KDV oranı nedir?" "bağlam" [] "boom" "stream boom" rfl rfl

/-- C9: `_format_chat_history` renders an empty history as the fixed
sentinel `"No conversation history yet."`; a non-empty history is rendered
one turn per line in original order, each line being the role label
(`"User"` for role `"user"`, `"Assistant"` otherwise) followed by the turn's
content hard-truncated to at most 500 characters. -/
theorem format_chat_history_spec :
    format_chat_history [] = "No conversation history yet." ∧
    (∀ h : List ChatMessage, h ≠ [] →
      format_chat_history h = String.intercalate "\n" (h.map renderMsg)) ∧
    ∀ msg : ChatMessage,
      renderMsg msg =
        (if msg.role == "user" then "User" else "Assistant") ++ ": " ++
          pySlice msg.content 500 ∧
      (pySlice msg.content 500).length ≤ 500 := by
  refine ⟨rfl, ?_, fun msg => ⟨rfl, pySlice_length_le _ _⟩⟩
  intro h hne
  have hempty : h.isEmpty = false := by simp [List.isEmpty_iff, hne]
  rw [format_chat_history, hempty]
  rfl

/-- C9 (witness): the non-empty case at a one-turn history. -/
theorem format_chat_history_spec_witness :
    format_chat_history [sampleMsg] =
      String.intercalate "\n" (([sampleMsg] : List ChatMessage).map renderMsg) :=
  format_chat_history_spec.2.1 [sampleMsg] (List.cons_ne_nil _ _)

/-- C10: whenever the underlying `get_collection` client call raises,
`get_collection_stats` returns the stats record with the collection name,
`vectors_count = 0`, `points_count = 0` and `status = "error"` (the embedded
function is total, so the exception never propagates). -/
theorem get_collection_stats_failure_spec
    (get_collection : String → Except String CollectionInfo)
    (collection_name e : String)
    (h : get_collection collection_name = Except.error e) :
    get_collection_stats get_collection collection_name =
      { name := collection_name, vectors_count := 0, points_count := 0,
        status := "error" } := by
  unfold get_collection_stats
  rw [h]

/-- C10 (witness): the statement at a concrete failing client call. -/
theorem get_collection_stats_failure_spec_witness :
    get_collection_stats failGetCollection "documents_tr" =
      { name := "documents_tr", vectors_count := 0, points_count := 0,
        status := "error" } :=
  get_collection_stats_failure_spec failGetCollection "documents_tr"
    "kaput" rfl

end RagTR
